import Mathlib

/-!
# Verification of the Lakeshore 370 serial driver core

Shallow embedding of the command/response layer of the `lakeshore370` Python
package (`temperature.py`, `outputs.py`, with `main.py` as the caller).  The
serial channel is modelled as a transcript of transmitted command lines plus a
script of replies still to be read; each Python method becomes a pure function
threading this state, with `Except` capturing raised `ValueError`s.  Float
values are modelled as exact fractions (`PyFloat`), which is faithful for the
sign tests and decimal literals the driver deals in.
-/

namespace Lakeshore370

/-! ## Python-style string and number primitives -/

/-- Digits of a decimal numeral to a natural number; `none` when empty or when a
non-digit occurs.  Used to model Python `int(...)`. -/
def digitsToNat (cs : List Char) : Option Nat :=
  if cs.isEmpty then none
  else cs.foldlM (fun acc c => if c.isDigit then some (acc * 10 + (c.toNat - 48)) else none) 0

/-- Optional sign followed by decimal digits, as an integer. -/
def parseIntChars : List Char → Option Int
  | '-' :: rest => (digitsToNat rest).map (fun n => -(n : Int))
  | '+' :: rest => (digitsToNat rest).map (fun n => (n : Int))
  | cs => (digitsToNat cs).map (fun n => (n : Int))

/-- Model of Python `int(string)` on instrument replies. -/
def parseInt (s : String) : Option Int :=
  parseIntChars s.data

/-- Value of a digit string (no validation; callers check digit-ness first). -/
def natOfDigits (cs : List Char) : Nat :=
  cs.foldl (fun a c => a * 10 + (c.toNat - 48)) 0

/-- Split off the longest leading run of decimal digits. -/
def splitDigits : List Char → List Char × List Char
  | [] => ([], [])
  | c :: cs =>
    if c.isDigit then
      let (d, r) := splitDigits cs
      (c :: d, r)
    else ([], c :: cs)

/-- Split a numeral at the first exponent marker `e`/`E`, if any. -/
def splitAtExp : List Char → List Char × Option (List Char)
  | [] => ([], none)
  | c :: cs =>
    if c = 'e' ∨ c = 'E' then ([], some cs)
    else
      let (m, e) := splitAtExp cs
      (c :: m, e)

/-- An exact value of a Python float: a fraction with positive denominator,
kept normalized by construction. -/
structure PyFloat where
  num : Int
  den : Nat
deriving Repr, DecidableEq

/-- Normalize a fraction by the gcd of its parts. -/
def PyFloat.norm (n : Int) (d : Nat) : PyFloat :=
  let g := n.natAbs.gcd d
  if g = 0 then ⟨0, 1⟩ else ⟨n / (g : Int), d / g⟩

/-- Model of Python `float(string)` on the decimal-literal grammar the
instrument emits: optional sign, digits with optional fraction, optional
exponent.  The value is kept exact. -/
def parseFloatChars (cs0 : List Char) : Option PyFloat :=
  let (sgn, cs) :=
    match cs0 with
    | '-' :: r => ((-1 : Int), r)
    | '+' :: r => ((1 : Int), r)
    | r => ((1 : Int), r)
  let (mant, expPart) := splitAtExp cs
  let (ip, rest1) := splitDigits mant
  let mantFrac : Option (Nat × Nat) :=
    match rest1 with
    | [] => if ip.isEmpty then none else some (natOfDigits ip, 1)
    | '.' :: rest2 =>
      let (fp, rest3) := splitDigits rest2
      if rest3.isEmpty then
        if ip.isEmpty ∧ fp.isEmpty then none
        else some (natOfDigits ip * 10 ^ fp.length + natOfDigits fp, 10 ^ fp.length)
      else none
    | _ => none
  match mantFrac, expPart with
  | none, _ => none
  | some (n, d), none => some (PyFloat.norm (sgn * n) d)
  | some (n, d), some e =>
    match parseIntChars e with
    | none => none
    | some k =>
      if 0 ≤ k then some (PyFloat.norm (sgn * n * 10 ^ k.toNat) d)
      else some (PyFloat.norm (sgn * n) (d * 10 ^ (-k).toNat))

/-- Model of Python `float(string)`. -/
def parseFloat (s : String) : Option PyFloat :=
  parseFloatChars s.data

/-- Whether `needle` is a leading block of `hay`. -/
def charsLeading : List Char → List Char → Bool
  | [], _ => true
  | _ :: _, [] => false
  | a :: as, b :: bs => a = b && charsLeading as bs

/-- Whether `needle` occurs as a contiguous block of `hay`: Python `needle in hay`. -/
def charsHasSub (needle : List Char) : List Char → Bool
  | [] => needle.isEmpty
  | b :: bs => charsLeading needle (b :: bs) || charsHasSub needle bs

/-- Python substring test `needle in hay`. -/
def pyIn (needle hay : String) : Bool :=
  charsHasSub needle.data hay.data

/-- Python `str.upper()` (ASCII). -/
def pyUpper (s : String) : String :=
  ⟨s.data.map Char.toUpper⟩

/-- Python `len(s)`. -/
def pyLen (s : String) : Nat :=
  s.data.length

/-- Python `c in s` for a single character. -/
def pyHasChar (s : String) (c : Char) : Bool :=
  s.data.contains c

/-- Python `s.split(",")`: split on every comma, keeping empty pieces. -/
def splitCommaChars : List Char → List String
  | [] => [""]
  | c :: cs =>
    if c = ',' then "" :: splitCommaChars cs
    else
      match splitCommaChars cs with
      | [] => [⟨[c]⟩]
      | p :: ps => ⟨c :: p.data⟩ :: ps

/-- Python `s.split(",")`. -/
def splitComma (s : String) : List String :=
  splitCommaChars s.data

/-- Decidable equality for `Except` results. -/
instance {ε α : Type} [DecidableEq ε] [DecidableEq α] : DecidableEq (Except ε α) :=
  fun a b =>
    match a, b with
    | .ok x, .ok y =>
      if h : x = y then .isTrue (by rw [h]) else .isFalse (by simp [h])
    | .error x, .error y =>
      if h : x = y then .isTrue (by rw [h]) else .isFalse (by simp [h])
    | .ok _, .error _ => .isFalse (by simp)
    | .error _, .ok _ => .isFalse (by simp)

/-! ## The serial channel -/

/-- State of the modelled serial link: commands transmitted so far, and the
scripted replies not yet consumed (`none` = read returned nothing, covering
both a timeout/empty read and a channel error). -/
structure SerialState where
  sent : List String
  replies : List (Option String)
deriving Repr, DecidableEq

/-- Transmit a command line without reading a reply. -/
def transmit (cmd : String) (s : SerialState) : SerialState :=
  { s with sent := s.sent ++ [cmd] }

/-- Model of `send_command` (temperature.py / outputs.py): write the command, then read
one line; a failed or empty read yields `none`. -/
def send_command (cmd : String) (s : SerialState) : Option String × SerialState :=
  match s.replies with
  | [] => (none, transmit cmd s)
  | r :: rest => (r, { sent := s.sent ++ [cmd], replies := rest })

/-! ## Input readers (`temperature.py`) -/

/-- A Python value returned by the readers: a float or a string (the source
returns sentinel markers and raw passthrough lines as plain `str`). -/
inductive PyVal where
  | num (q : PyFloat)
  | str (s : String)
deriving Repr, DecidableEq

/-- The over-range test applied to a parsed `RDGST?` reply: Python
`status_code & 32` is truthy exactly when bit 5 of the two's-complement value
is set, i.e. `code % 64 ≥ 32` with flooring modulus. -/
def statusFlagsOver (resp : Option String) : Bool :=
  match resp with
  | none => false
  | some st =>
    match parseInt st with
    | none => false
    | some code => 32 ≤ code % 64

/-- The character screen applied to measurement replies: overlong lines or
lines holding a backtick or NUL are treated as over-range. -/
def garbledLine (line : String) : Bool :=
  15 < pyLen line || pyHasChar line (Char.ofNat 96) || pyHasChar line (Char.ofNat 0)

/-- The textual over-range scan of `read_resistance`: Python
`any(indicator in response.upper() for indicator in ['OVER', 'R.', 'R_', 'OVERLD'])`. -/
def rMarkers (line : String) : Bool :=
  pyIn "OVER" (pyUpper line) || pyIn "R." (pyUpper line) ||
    pyIn "R_" (pyUpper line) || pyIn "OVERLD" (pyUpper line)

/-- The textual over-range scan of `read_temperature`: Python
`any(indicator in response.upper() for indicator in ['OVER', 'T.', 'T_', 'OVERLD'])`. -/
def tMarkers (line : String) : Bool :=
  pyIn "OVER" (pyUpper line) || pyIn "T." (pyUpper line) ||
    pyIn "T_" (pyUpper line) || pyIn "OVERLD" (pyUpper line)

/-- Embedding of `TemperatureReader.read_resistance` (temperature.py, lines 151–196). -/
def read_resistance (input_channel : Int) (s : SerialState) :
    Except String (PyVal × SerialState) :=
  if input_channel < 1 then
    .error "Input channel must be an integer >= 1"
  else
    let (status_response, s1) := send_command ("RDGST? " ++ toString input_channel) s
    if statusFlagsOver status_response then
      .ok (.str "R_OVER", s1)
    else
      let (response, s2) := send_command ("RDGR? " ++ toString input_channel) s1
      match response with
      | none => .ok (.str "NO_RESPONSE", s2)
      | some line =>
        if line = "" then .ok (.str "NO_RESPONSE", s2)
        else if garbledLine line then .ok (.str "R_OVER", s2)
        else
          match parseFloat line with
          | some v => if v.num ≤ 0 then .ok (.str "R_OVER", s2) else .ok (.num v, s2)
          | none =>
            if rMarkers line then .ok (.str "R_OVER", s2)
            else .ok (.str line, s2)

/-- Embedding of `TemperatureReader.read_temperature` (temperature.py, lines 199–252),
including the resistance fallback taken when the Kelvin value parses to 0.0. -/
def read_temperature (input_channel : Int) (s : SerialState) :
    Except String (PyVal × SerialState) :=
  if input_channel < 1 then
    .error "Input channel must be an integer >= 1"
  else
    let (status_response, s1) := send_command ("RDGST? " ++ toString input_channel) s
    if statusFlagsOver status_response then
      .ok (.str "T_OVER", s1)
    else
      let (response, s2) := send_command ("KRDG? " ++ toString input_channel) s1
      match response with
      | none => .ok (.str "NO_RESPONSE", s2)
      | some line =>
        if line = "" then .ok (.str "NO_RESPONSE", s2)
        else if garbledLine line then .ok (.str "T_OVER", s2)
        else
          match parseFloat line with
          | some v =>
            if v.num = 0 then
              match read_resistance input_channel s2 with
              | .error e => .error e
              | .ok (.num r, s3) =>
                if 0 < r.num then .ok (.num r, s3) else .ok (.str "T_OVER", s3)
              | .ok (.str _, s3) => .ok (.str "T_OVER", s3)
            else .ok (.num v, s2)
          | none =>
            if tMarkers line then .ok (.str "T_OVER", s2)
            else .ok (.str line, s2)

/-- Embedding of `TemperatureReader.read_sensor` (temperature.py, lines 255–267): delegates
to `read_resistance`. -/
def read_sensor (input_channel : Int) (s : SerialState) :
    Except String (PyVal × SerialState) :=
  read_resistance input_channel s

/-! ## Input scanning (`temperature.py`, `scan_inputs`) -/

/-- One per-channel result of a scan: the two fields of the Python dict. -/
structure ScanEntry where
  temperature : PyVal
  resistance : PyVal
deriving Repr, DecidableEq

/-- Python dict assignment `d[k] = v`: replace the value at an existing key
(keeping its position) or append the binding. -/
def dictInsert (d : List (Int × ScanEntry)) (k : Int) (v : ScanEntry) :
    List (Int × ScanEntry) :=
  match d with
  | [] => [(k, v)]
  | (k', v') :: rest => if k' = k then (k, v) :: rest else (k', v') :: dictInsert rest k v

/-- Python dict lookup `d.get(k)`. -/
def dictFind (d : List (Int × ScanEntry)) (k : Int) : Option ScanEntry :=
  match d with
  | [] => none
  | (k', v) :: rest => if k' = k then some v else dictFind rest k

/-- The body of one iteration of the scan loop: read temperature then
resistance for one channel, propagating any raised error. -/
def scanChannel (ch : Int) (s : SerialState) : Except String (ScanEntry × SerialState) :=
  match read_temperature ch s with
  | .error e => .error e
  | .ok (t, s1) =>
    match read_resistance ch s1 with
    | .error e => .error e
    | .ok (r, s2) => .ok (⟨t, r⟩, s2)

/-- The per-field markers stored when a channel's read raises `e`. -/
def errEntry (e : String) : ScanEntry :=
  ⟨.str ("ERROR: " ++ e), .str ("ERROR: " ++ e)⟩

/-- The scan loop of `TemperatureReader.scan_inputs` (temperature.py, lines
269–297): a caught exception becomes a per-field marker for that channel only
and the loop proceeds.  A raise happens only at argument validation, before any
transmission, so the channel state is unchanged in that case. -/
def scanLoop (l : List Int) (d : List (Int × ScanEntry)) (s : SerialState) :
    List (Int × ScanEntry) × SerialState :=
  match l with
  | [] => (d, s)
  | ch :: rest =>
    match scanChannel ch s with
    | .ok (entry, s1) => scanLoop rest (dictInsert d ch entry) s1
    | .error e => scanLoop rest (dictInsert d ch (errEntry e)) s

/-- Embedding of `TemperatureReader.scan_inputs` (temperature.py, lines 269–297). -/
def scan_inputs (l : List Int) (s : SerialState) :
    List (Int × ScanEntry) × SerialState :=
  scanLoop l [] s

/-! ## Output controller (`outputs.py`) -/

/-- Fractional-part digits of `num/den` (`num < den`), most significant first;
fuel-bounded, stopping at a zero remainder. -/
def fracDigitsAux : Nat → Nat → Nat → List Char
  | 0, _, _ => []
  | _ + 1, 0, _ => []
  | fuel + 1, num, den =>
    let n10 := num * 10
    Char.ofNat (48 + n10 / den) :: fracDigitsAux fuel (n10 % den) den

/-- Rendering of a `PyFloat` as Python renders a float into an f-string:
integer part, a dot, then the fractional digits (`".0"` when the value is
integral). -/
def pyNum (q : PyFloat) : String :=
  let sign := if q.num < 0 then "-" else ""
  let a := q.num.natAbs
  let ip := a / q.den
  let r := a % q.den
  if r = 0 then sign ++ toString ip ++ ".0"
  else sign ++ toString ip ++ "." ++ ⟨fracDigitsAux 30 r q.den⟩

/-- Embedding of `OutputController.set_analog_output` (outputs.py, lines 124–178).  The four
leading argument checks raise to the caller (`Except.error`); the mode-specific
checks sit inside the Python `try` block whose handler catches the raise and
returns `False`, so they yield `.ok (false, s)` with nothing transmitted. -/
def set_analog_output (channel polarity mode : Int)
    (input_channel data_source : Option Int)
    (high_value low_value manual_value : Option PyFloat)
    (s : SerialState) : Except String (Bool × SerialState) :=
  if channel ≠ 1 ∧ channel ≠ 2 then .error "Channel must be 1 or 2"
  else if polarity ≠ 0 ∧ polarity ≠ 1 then
    .error "Polarity must be 0 (unipolar) or 1 (bipolar)"
  else if ¬(mode = 0 ∨ mode = 1 ∨ mode = 2 ∨ mode = 3 ∨ mode = 4) then
    .error "Mode must be 0-4"
  else if mode = 4 ∧ channel ≠ 2 then
    .error "Still mode (4) only available for channel 2"
  else
    let head := "ANALOG " ++ toString channel ++ "," ++ toString polarity ++ ","
      ++ toString mode
    if mode = 1 then
      match input_channel, data_source, high_value, low_value with
      | some ic, some ds, some hv, some lv =>
        if ¬(1 ≤ ic ∧ ic ≤ 16) then .ok (false, s)
        else if ¬(ds = 1 ∨ ds = 2 ∨ ds = 3) then .ok (false, s)
        else
          .ok (true, transmit (head ++ "," ++ toString ic ++ "," ++ toString ds ++ ","
            ++ pyNum hv ++ "," ++ pyNum lv ++ ",0") s)
      | _, _, _, _ => .ok (false, s)
    else if mode = 2 then
      match manual_value with
      | some mv => .ok (true, transmit (head ++ ",0,0,0,0," ++ pyNum mv) s)
      | none => .ok (false, s)
    else .ok (true, transmit (head ++ ",0,0,0,0,0") s)

/-- The four leading argument checks of `set_analog_output` (the ones raised to
the caller): channel in {1,2}, polarity in {0,1}, mode in [0,4], and still mode
(4) only on channel 2. -/
def analogArgsOk (channel polarity mode : Int) : Prop :=
  (channel = 1 ∨ channel = 2) ∧ (polarity = 0 ∨ polarity = 1) ∧
    (0 ≤ mode ∧ mode ≤ 4) ∧ (mode = 4 → channel = 2)

instance (channel polarity mode : Int) : Decidable (analogArgsOk channel polarity mode) := by
  unfold analogArgsOk; infer_instance

/-- The field parse of an `ANALOG?` reply: Python indexes `parts[0]`–`parts[6]`
(ints then floats) inside a `try`, so any failure on the first seven fields
falls back to the raw line; fields past the seventh are never looked at. -/
def parseAnalogParts (parts : List String) :
    Option (Int × Int × Int × Int × PyFloat × PyFloat × PyFloat) :=
  match parts with
  | p0 :: p1 :: p2 :: p3 :: p4 :: p5 :: p6 :: _ => do
    let a ← parseInt p0
    let b ← parseInt p1
    let c ← parseInt p2
    let d ← parseInt p3
    let h ← parseFloat p4
    let l ← parseFloat p5
    let m ← parseFloat p6
    pure (a, b, c, d, h, l, m)
  | _ => none

/-- The result of `get_analog_output_config`: a parsed record dict or a plain
string (raw passthrough or the `"NO_RESPONSE"` marker). -/
inductive AnalogReading where
  | record (polarity mode channel data_source : Int) (high low manual : PyFloat)
  | str (line : String)
deriving Repr, DecidableEq

/-- Embedding of `OutputController.get_analog_output_config` (outputs.py, lines 180–203). -/
def get_analog_output_config (channel : Int) (s : SerialState) :
    Except String (AnalogReading × SerialState) :=
  if channel ≠ 1 ∧ channel ≠ 2 then .error "Channel must be 1 or 2"
  else
    let (resp, s1) := send_command ("ANALOG? " ++ toString channel) s
    match resp with
    | none => .ok (.str "NO_RESPONSE", s1)
    | some line =>
      if line = "" then .ok (.str "NO_RESPONSE", s1)
      else if 7 ≤ (splitComma line).length then
        match parseAnalogParts (splitComma line) with
        | some (a, b, c, d, h, l, m) => .ok (.record a b c d h l m, s1)
        | none => .ok (.str line, s1)
      else .ok (.str line, s1)

/-! ## Write-verify range operations (missing from src, modelled from the spec)

`main.py` calls `temp_reader.get_resistance_range` and
`temp_reader.set_resistance_range`, but `temperature.py` in src does not define
them; the spec (§4.3 and the wire table) is the only description of this
dialect. -/

/-- The range configuration record (spec §3): all fields within documented
bounds before transmission. -/
structure RangeConfig where
  mode : Int
  excitation : Int
  range : Int
  autorange : Int
  cs_off : Int
deriving Repr, DecidableEq

/-- The documented bounds of `RangeConfig` (spec §3). -/
def RangeConfig.Valid (c : RangeConfig) : Prop :=
  0 ≤ c.mode ∧ c.mode ≤ 2 ∧ 1 ≤ c.excitation ∧ c.excitation ≤ 22 ∧
    1 ≤ c.range ∧ c.range ≤ 22 ∧ (c.autorange = 0 ∨ c.autorange = 1) ∧
    (c.cs_off = 0 ∨ c.cs_off = 1)

instance (c : RangeConfig) : Decidable c.Valid := by
  unfold RangeConfig.Valid; infer_instance

/-- Classification of a range-query reply. -/
inductive RangeReading where
  | record (r : RangeConfig)
  | raw (line : String)
  | noResponse
deriving Repr, DecidableEq

/-- Modelled from the spec: the record parse of a `RDGRNG?` reply (spec §4.2
step 5): split on `,`; a `Record` exactly when the field count is 5 and every
field parses as an integer; otherwise the raw line; empty or absent reply is
no response. -/
def parseRangeReply (resp : Option String) : RangeReading :=
  match resp with
  | none => .noResponse
  | some line =>
    if line = "" then .noResponse
    else
      match splitComma line with
      | [a, b, c, d, e] =>
        match parseInt a, parseInt b, parseInt c, parseInt d, parseInt e with
        | some m, some ex, some rg, some ar, some cs => .record ⟨m, ex, rg, ar, cs⟩
        | _, _, _, _, _ => .raw line
      | _ => .raw line

/-- Modelled from the spec: `get_resistance_range` (`RDGRNG? <input>`), called
from main.py but missing from src.  Query channel must be in [1,16]
(spec §4.1); the reply is classified by `parseRangeReply`. -/
def get_resistance_range (n : Int) (s : SerialState) :
    Except String (RangeReading × SerialState) :=
  if n < 1 ∨ 16 < n then .error "Input channel must be an integer in [1,16]"
  else
    let (resp, s1) := send_command ("RDGRNG? " ++ toString n) s
    .ok (parseRangeReply resp, s1)

/-- Outcome of the write-verify protocol (spec §4.3). -/
inductive VerifyResult where
  | Applied
  | NotApplied
  | Unverifiable
deriving Repr, DecidableEq

/-- The `RDGRNG` set-command line (spec §4.1 / wire table). -/
def rangeSetCmd (n : Int) (cfg : RangeConfig) : String :=
  "RDGRNG " ++ toString n ++ "," ++ toString cfg.mode ++ "," ++ toString cfg.excitation
    ++ "," ++ toString cfg.range ++ "," ++ toString cfg.autorange ++ ","
    ++ toString cfg.cs_off

/-- Modelled from the spec: `set_resistance_range` write-verify (spec §4.3),
called from main.py but missing from src.  Validate the input and the config,
capture the pre-change record via the range query, transmit the set-command
(no reply is read for it), re-query, and compare the post record field-by-field
with the request: `Applied` on an exact match, `NotApplied` on a differing
record, `Unverifiable` when either read-back produced no record. -/
def set_resistance_range (n : Int) (cfg : RangeConfig) (s : SerialState) :
    Except String (VerifyResult × SerialState) :=
  if n < 1 ∨ 16 < n then .error "Input channel must be an integer in [1,16]"
  else if ¬cfg.Valid then .error "Range configuration out of documented bounds"
  else
    match get_resistance_range n s with
    | .error e => .error e
    | .ok (pre, s1) =>
      let s2 := transmit (rangeSetCmd n cfg) s1
      match get_resistance_range n s2 with
      | .error e => .error e
      | .ok (post, s3) =>
        match pre, post with
        | .record _, .record r2 => .ok (if r2 = cfg then .Applied else .NotApplied, s3)
        | _, _ => .ok (.Unverifiable, s3)

/-! ## Excitation-power reader (missing from src, modelled from the spec) -/

/-- Classification of a power reading (spec §3 `Reading`). -/
inductive PowerReading where
  | numeric (q : PyFloat)
  | sentinel (tag : String)
  | raw (line : String)
  | noResponse
deriving Repr, DecidableEq

/-- Modelled from the spec: `read_excitation_power` (`RDGPWR? <input>`), called
from main.py but missing from src.  Per the interpreter algorithm (spec §4.2):
channel in [1,16]; empty reply is no response; case-insensitive marker scan
before the numeric parse (`OVER`/`OVERLD` give the over sentinel `PWR_OVER`,
`NOT`/`NONE` give not-configured); any parsed float, non-positive included, is
accepted; on parse failure rescan for `OVER`/`ERR`/`INVALID` else raw. -/
def read_excitation_power (n : Int) (s : SerialState) :
    Except String (PowerReading × SerialState) :=
  if n < 1 ∨ 16 < n then .error "Input channel must be an integer in [1,16]"
  else
    let (resp, s1) := send_command ("RDGPWR? " ++ toString n) s
    match resp with
    | none => .ok (.noResponse, s1)
    | some line =>
      if line = "" then .ok (.noResponse, s1)
      else
        let u := pyUpper line
        if pyIn "OVER" u || pyIn "OVERLD" u then .ok (.sentinel "PWR_OVER", s1)
        else if pyIn "NOT" u || pyIn "NONE" u then .ok (.sentinel "NOT_CONFIGURED", s1)
        else
          match parseFloat line with
          | some v => .ok (.numeric v, s1)
          | none =>
            if pyIn "OVER" u || pyIn "ERR" u || pyIn "INVALID" u then
              .ok (.sentinel "PWR_OVER", s1)
            else .ok (.raw line, s1)

/-! ## Helper lemmas -/

theorem parseFloat_empty : parseFloat "" = none := by decide

theorem parseFloat_some_ne {line : String} {v : PyFloat}
    (h : parseFloat line = some v) : line ≠ "" := by
  rintro rfl
  rw [parseFloat_empty] at h
  cases h

/-- Reduced form of `read_resistance` on a two-reply script. -/
theorem read_resistance_eq (n : Int) (c0 : List String) (st ρ : Option String)
    (rest : List (Option String)) (hn : 1 ≤ n) :
    read_resistance n ⟨c0, st :: ρ :: rest⟩ =
      if statusFlagsOver st then
        .ok (.str "R_OVER", ⟨c0 ++ ["RDGST? " ++ toString n], ρ :: rest⟩)
      else
        let s2 : SerialState := ⟨c0 ++ ["RDGST? " ++ toString n, "RDGR? " ++ toString n], rest⟩
        match ρ with
        | none => .ok (.str "NO_RESPONSE", s2)
        | some line =>
          if line = "" then .ok (.str "NO_RESPONSE", s2)
          else if garbledLine line then .ok (.str "R_OVER", s2)
          else
            match parseFloat line with
            | some v => if v.num ≤ 0 then .ok (.str "R_OVER", s2) else .ok (.num v, s2)
            | none =>
              if rMarkers line then .ok (.str "R_OVER", s2) else .ok (.str line, s2)
    := by
  simp only [read_resistance, send_command]
  rw [if_neg (by omega : ¬ n < 1)]
  simp [List.append_assoc]

/-- Reduced form of `read_temperature` on a two-reply script. -/
theorem read_temperature_eq (n : Int) (c0 : List String) (st ρ : Option String)
    (rest : List (Option String)) (hn : 1 ≤ n) :
    read_temperature n ⟨c0, st :: ρ :: rest⟩ =
      if statusFlagsOver st then
        .ok (.str "T_OVER", ⟨c0 ++ ["RDGST? " ++ toString n], ρ :: rest⟩)
      else
        let s2 : SerialState := ⟨c0 ++ ["RDGST? " ++ toString n, "KRDG? " ++ toString n], rest⟩
        match ρ with
        | none => .ok (.str "NO_RESPONSE", s2)
        | some line =>
          if line = "" then .ok (.str "NO_RESPONSE", s2)
          else if garbledLine line then .ok (.str "T_OVER", s2)
          else
            match parseFloat line with
            | some v =>
              if v.num = 0 then
                match read_resistance n s2 with
                | .error e => .error e
                | .ok (.num r, s3) =>
                  if 0 < r.num then .ok (.num r, s3) else .ok (.str "T_OVER", s3)
                | .ok (.str _, s3) => .ok (.str "T_OVER", s3)
              else .ok (.num v, s2)
            | none =>
              if tMarkers line then .ok (.str "T_OVER", s2) else .ok (.str line, s2)
    := by
  simp only [read_temperature, send_command]
  rw [if_neg (by omega : ¬ n < 1)]
  simp [List.append_assoc]

theorem garbled_ne_empty {line : String} (h : garbledLine line = true) : line ≠ "" := by
  rintro rfl
  simp [garbledLine, pyLen, pyHasChar] at h

/-! ## Claim theorems -/

/-- C10: a Kelvin or resistance reply longer than 15 characters, or containing a
backtick or NUL, is classified as over-range (`"T_OVER"` / `"R_OVER"`) before
any numeric parse is attempted, whatever the line holds. -/
theorem C10_garbled_reply_is_over (n : Int) (c0 : List String) (st : Option String)
    (line : String) (rest : List (Option String)) (hn : 1 ≤ n)
    (hg : 15 < pyLen line ∨ pyHasChar line (Char.ofNat 96) = true ∨
      pyHasChar line (Char.ofNat 0) = true) :
    (∃ s', read_temperature n ⟨c0, [st, some line] ++ rest⟩ = .ok (.str "T_OVER", s')) ∧
    (∃ s', read_resistance n ⟨c0, [st, some line] ++ rest⟩ = .ok (.str "R_OVER", s')) := by
  have hgl : garbledLine line = true := by
    simp only [garbledLine, Bool.or_eq_true, decide_eq_true_eq]
    tauto
  have hne : line ≠ "" := garbled_ne_empty hgl
  rw [List.cons_append, List.cons_append, List.nil_append]
  constructor
  · by_cases hst : statusFlagsOver st
    · refine ⟨⟨c0 ++ ["RDGST? " ++ toString n], some line :: rest⟩, ?_⟩
      rw [read_temperature_eq n c0 st (some line) rest hn, if_pos hst]
    · refine ⟨⟨c0 ++ ["RDGST? " ++ toString n, "KRDG? " ++ toString n], rest⟩, ?_⟩
      rw [read_temperature_eq n c0 st (some line) rest hn, if_neg hst]
      simp [hne, hgl]
  · by_cases hst : statusFlagsOver st
    · refine ⟨⟨c0 ++ ["RDGST? " ++ toString n], some line :: rest⟩, ?_⟩
      rw [read_resistance_eq n c0 st (some line) rest hn, if_pos hst]
    · refine ⟨⟨c0 ++ ["RDGST? " ++ toString n, "RDGR? " ++ toString n], rest⟩, ?_⟩
      rw [read_resistance_eq n c0 st (some line) rest hn, if_neg hst]
      simp [hne, hgl]

/-- C10 witness: a 16-character numeric literal is still classified over-range. -/
theorem C10_witness :
    (∃ s', read_temperature 1 ⟨[], [some "0", some "1234567890123456"]⟩ =
      .ok (.str "T_OVER", s')) ∧
    (∃ s', read_resistance 1 ⟨[], [some "0", some "1234567890123456"]⟩ =
      .ok (.str "R_OVER", s')) :=
  C10_garbled_reply_is_over 1 [] (some "0") "1234567890123456" [] (by decide)
    (Or.inl (by decide))

/-- C4 counterexample: the resistance interpreter returns `"0.000123"` as the
numeric value 0.000123 — the claim's `Sentinel(Over)` does not happen, since
the value is positive and the override only fires at values ≤ 0.0. -/
theorem C4_counterexample :
    read_resistance 1 ⟨[], [some "0", some "0.000123"]⟩ =
      .ok (.num ⟨123, 1000000⟩, ⟨["RDGST? 1", "RDGR? 1"], []⟩) := by decide

/-- C4 (amended): the line `"0.000123"` yields the numeric value 0.000123 both
as a resistance reading (positive, so the non-positive override does not fire)
and as a power reading. -/
theorem C4_amended :
    read_resistance 1 ⟨[], [some "0", some "0.000123"]⟩ =
      .ok (.num ⟨123, 1000000⟩, ⟨["RDGST? 1", "RDGR? 1"], []⟩) ∧
    read_excitation_power 1 ⟨[], [some "0.000123"]⟩ =
      .ok (.numeric ⟨123, 1000000⟩, ⟨["RDGPWR? 1"], []⟩) := by decide

/-- C2 counterexample: channel 17 is accepted and transmitted (no
`InvalidArgument`), and the Kelvin read transmits `RDGST?` then `KRDG?` — the
claimed lone `"RDGK? 1"` is never sent. -/
theorem C2_counterexample :
    read_resistance 17 ⟨[], [some "0", some "1.5"]⟩ =
      .ok (.num ⟨3, 2⟩, ⟨["RDGST? 17", "RDGR? 17"], []⟩) ∧
    read_temperature 1 ⟨[], [some "0", some "1.5"]⟩ =
      .ok (.num ⟨3, 2⟩, ⟨["RDGST? 1", "KRDG? 1"], []⟩) ∧
    "RDGK? 1" ∉ (["RDGST? 1", "KRDG? 1"] : List String) := by decide

/-- C2 (amended): for channels `n ≥ 1` (no upper bound), the resistance read
transmits `"RDGST? n"` then `"RDGR? n"`, the Kelvin read transmits
`"RDGST? n"` then `"KRDG? n"`, and the sensor read is the resistance read; for
`n < 1` all three raise `ValueError` before any transmission. -/
theorem C2_amended (n : Int) (c0 : List String) (line : String) (v : PyFloat)
    (rest : List (Option String)) :
    (n < 1 →
      read_temperature n ⟨c0, [some "0", some line] ++ rest⟩ =
        .error "Input channel must be an integer >= 1" ∧
      read_resistance n ⟨c0, [some "0", some line] ++ rest⟩ =
        .error "Input channel must be an integer >= 1" ∧
      read_sensor n ⟨c0, [some "0", some line] ++ rest⟩ =
        .error "Input channel must be an integer >= 1") ∧
    (1 ≤ n → parseFloat line = some v → 0 < v.num → garbledLine line = false →
      read_temperature n ⟨c0, [some "0", some line] ++ rest⟩ =
        .ok (.num v, ⟨c0 ++ ["RDGST? " ++ toString n, "KRDG? " ++ toString n], rest⟩) ∧
      read_resistance n ⟨c0, [some "0", some line] ++ rest⟩ =
        .ok (.num v, ⟨c0 ++ ["RDGST? " ++ toString n, "RDGR? " ++ toString n], rest⟩) ∧
      read_sensor n ⟨c0, [some "0", some line] ++ rest⟩ =
        read_resistance n ⟨c0, [some "0", some line] ++ rest⟩) := by
  constructor
  · intro hlt
    refine ⟨?_, ?_, ?_⟩ <;>
      simp [read_temperature, read_resistance, read_sensor, if_pos hlt]
  · intro hn hv hpos hgl
    have hne : line ≠ "" := parseFloat_some_ne hv
    have hst : statusFlagsOver (some "0") = false := by decide
    rw [List.cons_append, List.cons_append, List.nil_append]
    refine ⟨?_, ?_, rfl⟩
    · rw [read_temperature_eq n c0 (some "0") (some line) rest hn, if_neg (by simp [hst])]
      simp [hne, hgl, hv]
      intro h0
      exact absurd h0 (by omega)
    · rw [read_resistance_eq n c0 (some "0") (some line) rest hn, if_neg (by simp [hst])]
      simp [hne, hgl, hv]
      omega

/-- C2 witness: channel 3 with reply `"1.5"`. -/
theorem C2_witness :
    read_temperature 3 ⟨[], [some "0", some "1.5"]⟩ =
      .ok (.num ⟨3, 2⟩, ⟨["RDGST? 3", "KRDG? 3"], []⟩) ∧
    read_resistance 3 ⟨[], [some "0", some "1.5"]⟩ =
      .ok (.num ⟨3, 2⟩, ⟨["RDGST? 3", "RDGR? 3"], []⟩) :=
  ⟨((C2_amended 3 [] "1.5" ⟨3, 2⟩ []).2 (by decide) (by decide) (by decide) (by decide)).1,
   ((C2_amended 3 [] "1.5" ⟨3, 2⟩ []).2 (by decide) (by decide) (by decide) (by decide)).2.1⟩

/-- C3 counterexample: a Kelvin reply parsing to the negative value −1.5 is
returned as that number, not reclassified as `"T_OVER"`. -/
theorem C3_counterexample :
    parseFloat "-1.5" = some ⟨-3, 2⟩ ∧ ((⟨-3, 2⟩ : PyFloat).num ≤ 0) = True ∧
    read_temperature 1 ⟨[], [some "0", some "-1.5"]⟩ =
      .ok (.num ⟨-3, 2⟩, ⟨["RDGST? 1", "KRDG? 1"], []⟩) := by decide

/-- C3 (amended): a resistance reading parsing to a value ≤ 0.0 is reclassified
as `"R_OVER"`; the Kelvin reader, however, returns negative parsed values
unchanged (only an exact 0.0 diverts into the resistance fallback). -/
theorem C3_amended (n : Int) (c0 : List String) (st : Option String) (line : String)
    (v : PyFloat) (rest : List (Option String)) (hn : 1 ≤ n)
    (hv : parseFloat line = some v) :
    (v.num ≤ 0 →
      ∃ s', read_resistance n ⟨c0, [st, some line] ++ rest⟩ = .ok (.str "R_OVER", s')) ∧
    (v.num < 0 → statusFlagsOver st = false → garbledLine line = false →
      read_temperature n ⟨c0, [st, some line] ++ rest⟩ =
        .ok (.num v, ⟨c0 ++ ["RDGST? " ++ toString n, "KRDG? " ++ toString n], rest⟩)) := by
  have hne : line ≠ "" := parseFloat_some_ne hv
  rw [List.cons_append, List.cons_append, List.nil_append]
  constructor
  · intro hle
    by_cases hst : statusFlagsOver st
    · refine ⟨⟨c0 ++ ["RDGST? " ++ toString n], some line :: rest⟩, ?_⟩
      rw [read_resistance_eq n c0 st (some line) rest hn, if_pos hst]
    · refine ⟨⟨c0 ++ ["RDGST? " ++ toString n, "RDGR? " ++ toString n], rest⟩, ?_⟩
      rw [read_resistance_eq n c0 st (some line) rest hn, if_neg hst]
      by_cases hgl : garbledLine line <;> simp [hne, hgl, hv, hle]
  · intro hneg hst hgl
    rw [read_temperature_eq n c0 st (some line) rest hn, if_neg (by simp [hst])]
    simp [hne, hgl, hv]
    intro h0
    exact absurd h0 (by omega)

/-- C3 witness: the reply `"-2.5"` as a resistance is `"R_OVER"`, as a Kelvin
reading it is −2.5. -/
theorem C3_witness :
    (∃ s', read_resistance 2 ⟨[], [some "0", some "-2.5"]⟩ = .ok (.str "R_OVER", s')) ∧
    read_temperature 2 ⟨[], [some "0", some "-2.5"]⟩ =
      .ok (.num ⟨-5, 2⟩, ⟨["RDGST? 2", "KRDG? 2"], []⟩) :=
  ⟨(C3_amended 2 [] (some "0") "-2.5" ⟨-5, 2⟩ [] (by decide) (by decide)).1 (by decide),
   (C3_amended 2 [] (some "0") "-2.5" ⟨-5, 2⟩ [] (by decide) (by decide)).2
     (by decide) (by decide) (by decide)⟩

/-- C5 counterexample: a resistance reply `"NONE"` is returned unchanged — no
`NotConfigured` sentinel exists — and a sensor over-range is labelled
`"R_OVER"`, not `"SENSOR_OVER"`. -/
theorem C5_counterexample :
    read_resistance 1 ⟨[], [some "0", some "NONE"]⟩ =
      .ok (.str "NONE", ⟨["RDGST? 1", "RDGR? 1"], []⟩) ∧
    read_sensor 1 ⟨[], [some "0", some "OVERLD"]⟩ =
      .ok (.str "R_OVER", ⟨["RDGST? 1", "RDGR? 1"], []⟩) := by decide

/-- C5 (amended): marker classification happens only after a failed numeric
parse; the recognized markers are `OVER`/`OVERLD` plus `R.`/`R_` (resistance)
or `T.`/`T_` (Kelvin), case-insensitively, yielding `"R_OVER"`/`"T_OVER"`;
`NOT`/`NONE` are not markers, so such lines pass through unchanged; the sensor
read is the resistance read, so its over-range label is `"R_OVER"`. -/
theorem C5_amended (n : Int) (c0 : List String) (st : Option String) (line : String)
    (rest : List (Option String)) (hn : 1 ≤ n) (hst : statusFlagsOver st = false)
    (hgl : garbledLine line = false) (hne : line ≠ "") (hp : parseFloat line = none) :
    read_resistance n ⟨c0, [st, some line] ++ rest⟩ =
      .ok (.str (if rMarkers line then "R_OVER" else line),
        ⟨c0 ++ ["RDGST? " ++ toString n, "RDGR? " ++ toString n], rest⟩) ∧
    read_temperature n ⟨c0, [st, some line] ++ rest⟩ =
      .ok (.str (if tMarkers line then "T_OVER" else line),
        ⟨c0 ++ ["RDGST? " ++ toString n, "KRDG? " ++ toString n], rest⟩) ∧
    read_sensor n ⟨c0, [st, some line] ++ rest⟩ =
      read_resistance n ⟨c0, [st, some line] ++ rest⟩ ∧
    rMarkers "NONE" = false ∧ rMarkers "NOT A READING" = false ∧
    tMarkers "NONE" = false := by
  rw [List.cons_append, List.cons_append, List.nil_append]
  refine ⟨?_, ?_, rfl, by decide, by decide, by decide⟩
  · rw [read_resistance_eq n c0 st (some line) rest hn, if_neg (by simp [hst])]
    simp only [hp]
    by_cases hm : rMarkers line <;> simp [hne, hgl, hm]
  · rw [read_temperature_eq n c0 st (some line) rest hn, if_neg (by simp [hst])]
    simp only [hp]
    by_cases hm : tMarkers line <;> simp [hne, hgl, hm]

/-- C5 witness: `"NONE"` passes through as a resistance reply; a lowercase
`"overld"` Kelvin reply is the over marker. -/
theorem C5_witness :
    read_resistance 4 ⟨[], [some "0", some "NONE"]⟩ =
      .ok (.str "NONE", ⟨["RDGST? 4", "RDGR? 4"], []⟩) ∧
    read_temperature 4 ⟨[], [some "0", some "overld"]⟩ =
      .ok (.str "T_OVER", ⟨["RDGST? 4", "KRDG? 4"], []⟩) := by
  have h1 := (C5_amended 4 [] (some "0") "NONE" [] (by decide) (by decide) (by decide)
    (by decide) (by decide)).1
  have h2 := (C5_amended 4 [] (some "0") "overld" [] (by decide) (by decide) (by decide)
    (by decide) (by decide)).2.1
  exact ⟨h1.trans (by decide), h2.trans (by decide)⟩

/-- A numeric result of `read_resistance` is always positive: non-positive
parsed values are reclassified as `"R_OVER"` before being returned. -/
theorem read_resistance_num_pos {n : Int} {s s' : SerialState} {r : PyFloat}
    (h : read_resistance n s = .ok (.num r, s')) : 0 < r.num := by
  obtain ⟨c0, replies⟩ := s
  by_cases hn : n < 1
  · unfold read_resistance at h
    rw [if_pos hn] at h
    exact Except.noConfusion h
  push_neg at hn
  rcases replies with _ | ⟨r0, _ | ⟨r1, rest⟩⟩
  · unfold read_resistance at h
    rw [if_neg (show ¬ n < 1 from by omega)] at h
    simp [send_command, transmit, statusFlagsOver] at h
  · unfold read_resistance at h
    rw [if_neg (show ¬ n < 1 from by omega)] at h
    by_cases hst : statusFlagsOver r0 <;> simp [send_command, transmit, hst] at h
  · rw [read_resistance_eq n c0 r0 r1 rest hn] at h
    by_cases hst : statusFlagsOver r0
    · rw [if_pos hst] at h
      simp at h
    · rw [if_neg hst] at h
      rcases r1 with _ | line
      · simp at h
      · by_cases hne : line = ""
        · simp [hne] at h
        · by_cases hgb : garbledLine line
          · simp [hne, hgb] at h
          · rcases hp : parseFloat line with _ | v
            · simp [hne, hgb, hp] at h
              split at h <;> simp at h
            · simp [hne, hgb, hp] at h
              by_cases hle : v.num ≤ 0
              · simp [hle] at h
              · rw [if_neg hle] at h
                simp at h
                obtain ⟨h1, -⟩ := h
                subst h1
                omega

/-- C9 counterexample: an overlong Kelvin reply that still parses to exactly
0.0 is immediately classified `"T_OVER"`; no resistance read is issued. -/
theorem C9_counterexample :
    parseFloat "0.0000000000000000" = some ⟨0, 1⟩ ∧
    read_temperature 1 ⟨[], [some "0", some "0.0000000000000000"]⟩ =
      .ok (.str "T_OVER", ⟨["RDGST? 1", "KRDG? 1"], []⟩) ∧
    "RDGR? 1" ∉ (["RDGST? 1", "KRDG? 1"] : List String) := by decide

/-- C9 (amended): when the Kelvin reply passes the status check and the
pre-parse screen and parses to exactly 0.0, `read_temperature` issues a
resistance read on the same channel and returns its value when that value is a
(necessarily positive) number, and `"T_OVER"` when the fallback produced a
string instead. -/
theorem C9_amended (n : Int) (c0 : List String) (st : Option String) (line : String)
    (v : PyFloat) (rest : List (Option String)) (hn : 1 ≤ n)
    (hst : statusFlagsOver st = false) (hgl : garbledLine line = false)
    (hv : parseFloat line = some v) (h0 : v.num = 0) :
    (∀ r s3,
      read_resistance n ⟨c0 ++ ["RDGST? " ++ toString n, "KRDG? " ++ toString n], rest⟩
          = .ok (.num r, s3) →
      0 < r.num ∧
        read_temperature n ⟨c0, [st, some line] ++ rest⟩ = .ok (.num r, s3)) ∧
    (∀ x s3,
      read_resistance n ⟨c0 ++ ["RDGST? " ++ toString n, "KRDG? " ++ toString n], rest⟩
          = .ok (.str x, s3) →
      read_temperature n ⟨c0, [st, some line] ++ rest⟩ = .ok (.str "T_OVER", s3)) := by
  have hne : line ≠ "" := parseFloat_some_ne hv
  rw [List.cons_append, List.cons_append, List.nil_append]
  constructor
  · intro r s3 hr
    have hpos := read_resistance_num_pos hr
    refine ⟨hpos, ?_⟩
    rw [read_temperature_eq n c0 st (some line) rest hn, if_neg (by simp [hst])]
    simp [hne, hgl, hv, h0, hr, hpos]
  · intro x s3 hx
    rw [read_temperature_eq n c0 st (some line) rest hn, if_neg (by simp [hst])]
    simp [hne, hgl, hv, h0, hx]

/-- C9 witness: Kelvin reply `"0.0"`, fallback resistance 2.5 is returned as
the temperature result. -/
theorem C9_witness :
    read_temperature 1 ⟨[], [some "0", some "0.0", some "0", some "2.5"]⟩ =
      .ok (.num ⟨5, 2⟩, ⟨["RDGST? 1", "KRDG? 1", "RDGST? 1", "RDGR? 1"], []⟩) := by
  have h := (C9_amended 1 [] (some "0") "0.0" ⟨0, 1⟩ [some "0", some "2.5"]
    (by decide) (by decide) (by decide) (by decide) (by decide)).1 ⟨5, 2⟩
    ⟨["RDGST? 1", "KRDG? 1", "RDGST? 1", "RDGR? 1"], []⟩ (by decide)
  exact h.2

/-- Fewer than seven comma-separated fields can never produce an analog
record. -/
theorem parseAnalogParts_short {parts : List String} (h : parts.length < 7) :
    parseAnalogParts parts = none := by
  rcases parts with _ | ⟨a, _ | ⟨b, _ | ⟨c, _ | ⟨d, _ | ⟨e, _ | ⟨f, _ | ⟨g, tl⟩⟩⟩⟩⟩⟩⟩ <;>
    first
      | rfl
      | (exfalso; simp [List.length_cons] at h; omega)

/-- C6 counterexample: an eight-field `ANALOG?` reply still yields a record
(the source accepts any field count of at least 7), contradicting an exact
arity-7 requirement. -/
theorem C6_counterexample :
    (splitComma "0,1,2,3,4.0,5.0,6.0,7").length = 8 ∧
    get_analog_output_config 1 ⟨[], [some "0,1,2,3,4.0,5.0,6.0,7"]⟩ =
      .ok (.record 0 1 2 3 ⟨4, 1⟩ ⟨5, 1⟩ ⟨6, 1⟩, ⟨["ANALOG? 1"], []⟩) := by decide

/-- C6 (amended): the analog-config interpreter splits on `,` and returns a
record exactly when the first seven fields parse by their documented types and
at least seven fields are present (extra fields are ignored); otherwise, and
also on any parse failure, the raw line is returned unchanged, never an error;
the range query (modelled from the spec) requires exactly five integer
fields. -/
theorem C6_amended (ch : Int) (c0 : List String) (line : String)
    (rest : List (Option String)) (hch : ch = 1 ∨ ch = 2) (hne : line ≠ "") :
    get_analog_output_config ch ⟨c0, some line :: rest⟩ =
      .ok ((match parseAnalogParts (splitComma line) with
        | some (a, b, c, d, h, l, m) => AnalogReading.record a b c d h l m
        | none => AnalogReading.str line),
        ⟨c0 ++ ["ANALOG? " ++ toString ch], rest⟩) ∧
    ((splitComma line).length < 7 → parseAnalogParts (splitComma line) = none) ∧
    parseRangeReply (some "1,10,22,1,0") = .record ⟨1, 10, 22, 1, 0⟩ ∧
    parseRangeReply (some "1,10,22") = .raw "1,10,22" ∧
    (∀ m : Int, 1 ≤ m → m ≤ 16 →
      get_resistance_range m ⟨c0, some line :: rest⟩ =
        .ok (parseRangeReply (some line), ⟨c0 ++ ["RDGRNG? " ++ toString m], rest⟩)) := by
  have hch' : ¬(ch ≠ 1 ∧ ch ≠ 2) := by tauto
  refine ⟨?_, fun hlen => parseAnalogParts_short hlen, by decide, by decide, ?_⟩
  · unfold get_analog_output_config
    rw [if_neg hch']
    simp only [send_command]
    rw [if_neg hne]
    by_cases hlen : 7 ≤ (splitComma line).length
    · rw [if_pos hlen]
      rcases hp : parseAnalogParts (splitComma line) with _ | ⟨a, b, c, d, h, l, m⟩ <;>
        simp [hp]
    · rw [if_neg hlen]
      rw [parseAnalogParts_short (show (splitComma line).length < 7 from by omega)]
  · intro m h1 h2
    unfold get_resistance_range
    rw [if_neg (by omega : ¬(m < 1 ∨ 16 < m))]
    simp [send_command]

/-- C6 witness: a six-field analog reply falls back to the raw line; the spec's
five-field range record parses. -/
theorem C6_witness :
    get_analog_output_config 1 ⟨[], [some "0,1,2,3,4.0,5.0"]⟩ =
      .ok (.str "0,1,2,3,4.0,5.0", ⟨["ANALOG? 1"], []⟩) ∧
    get_resistance_range 2 ⟨[], [some "1,10,22,1,0"]⟩ =
      .ok (.record ⟨1, 10, 22, 1, 0⟩, ⟨["RDGRNG? 2"], []⟩) := by
  have h1 := (C6_amended 1 [] "0,1,2,3,4.0,5.0" [] (Or.inl rfl) (by decide)).1
  have h2 := (C6_amended 2 [] "1,10,22,1,0" [] (Or.inr rfl) (by decide)).2.2.2.2
    2 (by decide) (by decide)
  exact ⟨h1.trans (by decide), h2.trans (by decide)⟩

/-- C7 counterexample: `set_analog_output(1, 0, 1)` with the mode-1 fields
missing does not raise — the internal `ValueError` is caught and the call
returns `False` (nothing is transmitted). -/
theorem C7_counterexample :
    set_analog_output 1 0 1 none none none none none ⟨[], []⟩ =
      .ok (false, ⟨[], []⟩) ∧
    ∀ msg, set_analog_output 1 0 1 none none none none none ⟨[], []⟩ ≠ .error msg := by
  have h0 : set_analog_output 1 0 1 none none none none none ⟨[], []⟩ =
      .ok (false, ⟨[], []⟩) := by decide
  exact ⟨h0, fun msg h => by rw [h0] at h; exact Except.noConfusion h⟩

/-- C7 (amended): violations of the four leading checks (channel, polarity,
mode range, still-mode channel) raise `ValueError` before any transmission;
missing or out-of-range mode-1/mode-2 fields are caught internally and the
call returns `False` with nothing transmitted; every call passing validation
transmits the 8-field `ANALOG` command, fields unused by the mode
zero-filled, and returns `True`. -/
theorem C7_amended (channel polarity mode : Int) (ic ds : Option Int)
    (hi lo mv : Option PyFloat) (s : SerialState) :
    (¬analogArgsOk channel polarity mode →
      ∃ msg, set_analog_output channel polarity mode ic ds hi lo mv s = .error msg) ∧
    (analogArgsOk channel polarity mode → mode = 1 →
      ic = none ∨ ds = none ∨ hi = none ∨ lo = none →
      set_analog_output channel polarity mode ic ds hi lo mv s = .ok (false, s)) ∧
    (analogArgsOk channel polarity mode → mode = 1 →
      ∀ i d h l, ic = some i → ds = some d → hi = some h → lo = some l →
      (¬(1 ≤ i ∧ i ≤ 16) ∨ ¬(d = 1 ∨ d = 2 ∨ d = 3) →
        set_analog_output channel polarity mode ic ds hi lo mv s = .ok (false, s)) ∧
      ((1 ≤ i ∧ i ≤ 16) → (d = 1 ∨ d = 2 ∨ d = 3) →
        set_analog_output channel polarity mode ic ds hi lo mv s =
          .ok (true, transmit ("ANALOG " ++ toString channel ++ "," ++ toString polarity
            ++ "," ++ toString mode ++ "," ++ toString i ++ "," ++ toString d ++ ","
            ++ pyNum h ++ "," ++ pyNum l ++ ",0") s))) ∧
    (analogArgsOk channel polarity mode → mode = 2 →
      (mv = none → set_analog_output channel polarity mode ic ds hi lo mv s = .ok (false, s)) ∧
      (∀ v, mv = some v →
        set_analog_output channel polarity mode ic ds hi lo mv s =
          .ok (true, transmit ("ANALOG " ++ toString channel ++ "," ++ toString polarity
            ++ "," ++ toString mode ++ ",0,0,0,0," ++ pyNum v) s))) ∧
    (analogArgsOk channel polarity mode → mode = 0 ∨ mode = 3 ∨ mode = 4 →
      set_analog_output channel polarity mode ic ds hi lo mv s =
        .ok (true, transmit ("ANALOG " ++ toString channel ++ "," ++ toString polarity
          ++ "," ++ toString mode ++ ",0,0,0,0,0") s)) := by
  refine ⟨?_, ?_, ?_, ?_, ?_⟩
  · intro hbad
    unfold set_analog_output
    by_cases h1 : channel ≠ 1 ∧ channel ≠ 2
    · exact ⟨_, by rw [if_pos h1]⟩
    by_cases h2 : polarity ≠ 0 ∧ polarity ≠ 1
    · exact ⟨_, by rw [if_neg h1, if_pos h2]⟩
    by_cases h3 : ¬(mode = 0 ∨ mode = 1 ∨ mode = 2 ∨ mode = 3 ∨ mode = 4)
    · exact ⟨_, by rw [if_neg h1, if_neg h2, if_pos h3]⟩
    by_cases h4 : mode = 4 ∧ channel ≠ 2
    · exact ⟨_, by rw [if_neg h1, if_neg h2, if_neg h3, if_pos h4]⟩
    exact absurd ⟨by tauto, by tauto, by omega, by tauto⟩ hbad
  · rintro ⟨hc, hp, hm, h4⟩ rfl hmiss
    unfold set_analog_output
    rw [if_neg (by tauto), if_neg (by tauto), if_neg (by tauto), if_neg (by simp)]
    rw [if_pos rfl]
    rcases ic with _ | i <;> rcases ds with _ | d <;> rcases hi with _ | h <;>
      rcases lo with _ | l <;> simp_all
  · rintro ⟨hc, hp, hm, h4⟩ rfl i d h l rfl rfl rfl rfl
    unfold set_analog_output
    rw [if_neg (by tauto), if_neg (by tauto), if_neg (by tauto), if_neg (by simp),
      if_pos rfl]
    constructor
    · rintro (hbad | hbad)
      · simp [hbad]
      · by_cases hir : 1 ≤ i ∧ i ≤ 16
        · simp [hir, hbad]
        · simp [hir]
    · intro hir hd
      simp [hir, hd]
  · rintro ⟨hc, hp, hm, h4⟩ rfl
    unfold set_analog_output
    rw [if_neg (by tauto), if_neg (by tauto), if_neg (by tauto), if_neg (by simp),
      if_neg (by omega), if_pos rfl]
    constructor
    · rintro rfl
      rfl
    · rintro v rfl
      rfl
  · rintro ⟨hc, hp, hm, h4⟩ hmode
    unfold set_analog_output
    rw [if_neg (by tauto), if_neg (by tauto), if_neg (by tauto), if_neg (by tauto),
      if_neg (by omega), if_neg (by omega)]

/-- C7 witness: a valid still-mode call on channel 2 transmits the zero-filled
command; a mode-1 call missing its fields returns `False`. -/
theorem C7_witness :
    set_analog_output 2 1 4 none none none none none ⟨[], []⟩ =
      .ok (true, ⟨["ANALOG 2,1,4,0,0,0,0,0"], []⟩) ∧
    set_analog_output 2 0 1 none (some 2) none none none ⟨[], []⟩ =
      .ok (false, ⟨[], []⟩) := by
  have h1 := (C7_amended 2 1 4 none none none none none ⟨[], []⟩).2.2.2.2
    (by unfold analogArgsOk; omega) (by omega)
  have h2 := (C7_amended 2 0 1 none (some 2) none none none ⟨[], []⟩).2.1
    (by unfold analogArgsOk; omega) rfl (Or.inl rfl)
  exact ⟨h1.trans (by decide), h2⟩

/-- C1: `set_resistance_range` (modelled from the spec) first issues the range
query, transmits the `RDGRNG` set-command, re-issues the query, and compares
the post-change record field-by-field with the request: `Applied` on an exact
match, `NotApplied` on a differing record, `Unverifiable` when either
read-back produced no record. -/
theorem C1_setrange_write_verify (n : Int) (cfg : RangeConfig) (c0 : List String)
    (o1 o2 : Option String) (rest : List (Option String))
    (h1 : 1 ≤ n) (h2 : n ≤ 16) (hcfg : cfg.Valid) :
    set_resistance_range n cfg ⟨c0, [o1, o2] ++ rest⟩ =
      .ok ((match parseRangeReply o1, parseRangeReply o2 with
        | .record _, .record r2 =>
          if r2 = cfg then VerifyResult.Applied else VerifyResult.NotApplied
        | _, _ => VerifyResult.Unverifiable),
        ⟨c0 ++ ["RDGRNG? " ++ toString n, rangeSetCmd n cfg, "RDGRNG? " ++ toString n],
          rest⟩) := by
  have hn : ¬(n < 1 ∨ 16 < n) := by omega
  have hget : ∀ (c1 : List String) (o : Option String) (rr : List (Option String)),
      get_resistance_range n ⟨c1, o :: rr⟩ =
        .ok (parseRangeReply o, ⟨c1 ++ ["RDGRNG? " ++ toString n], rr⟩) := by
    intro c1 o rr
    unfold get_resistance_range
    rw [if_neg hn]
    simp [send_command]
  unfold set_resistance_range
  rw [if_neg hn, if_neg (not_not_intro hcfg)]
  simp only [List.cons_append, List.nil_append, hget, transmit]
  rcases parseRangeReply o1 with r1 | l1 | _ <;>
    rcases parseRangeReply o2 with r2 | l2 | _ <;>
      simp [List.append_assoc]

/-- C1 witness: the spec's worked example — request `{1,10,22,1,0}`, pre-read
`{0,5,5,0,0}`, post-read `{1,10,22,1,0}` — verifies as `Applied`. -/
theorem C1_witness :
    set_resistance_range 1 ⟨1, 10, 22, 1, 0⟩ ⟨[], [some "0,5,5,0,0", some "1,10,22,1,0"]⟩ =
      .ok (.Applied, ⟨["RDGRNG? 1", "RDGRNG 1,1,10,22,1,0", "RDGRNG? 1"], []⟩) := by
  have h := C1_setrange_write_verify 1 ⟨1, 10, 22, 1, 0⟩ []
    (some "0,5,5,0,0") (some "1,10,22,1,0") [] (by decide) (by decide) (by decide)
  exact h.trans (by decide)

/-- Lookup after inserting at the same key. -/
theorem dictFind_insert_self (d : List (Int × ScanEntry)) (k : Int) (v : ScanEntry) :
    dictFind (dictInsert d k v) k = some v := by
  induction d with
  | nil => simp [dictInsert, dictFind]
  | cons p rest ih =>
    obtain ⟨k', v'⟩ := p
    by_cases h : k' = k <;> simp [dictInsert, dictFind, h, ih]

/-- Lookup after inserting at a different key. -/
theorem dictFind_insert_other (d : List (Int × ScanEntry)) (k k' : Int) (v : ScanEntry)
    (h : k ≠ k') : dictFind (dictInsert d k' v) k = dictFind d k := by
  induction d with
  | nil => simp [dictInsert, dictFind, Ne.symm h]
  | cons p rest ih =>
    obtain ⟨k0, v0⟩ := p
    by_cases h0 : k0 = k' <;> simp [dictInsert, dictFind, h0, Ne.symm h, ih]

/-- An invalid channel makes the per-channel scan body raise before any
transmission. -/
theorem scanChannel_bad (ch : Int) (s : SerialState) (h : ch < 1) :
    scanChannel ch s = .error "Input channel must be an integer >= 1" := by
  simp [scanChannel, read_temperature, if_pos h]

/-- Invariant of the scan loop: every processed channel has an entry, and a
channel whose read raises keeps the per-field error marker. -/
theorem scanLoop_spec (l : List Int) (d : List (Int × ScanEntry)) (s : SerialState)
    (ch : Int) :
    ((dictFind (scanLoop l d s).1 ch).isSome ↔ ch ∈ l ∨ (dictFind d ch).isSome) ∧
    (ch < 1 →
      (ch ∈ l ∨ dictFind d ch = some (errEntry "Input channel must be an integer >= 1")) →
      dictFind (scanLoop l d s).1 ch =
        some (errEntry "Input channel must be an integer >= 1")) := by
  induction l generalizing d s with
  | nil => simp [scanLoop]
  | cons c rest ih =>
    rcases hsc : scanChannel c s with e | es
    · simp only [scanLoop, hsc]
      refine ⟨?_, ?_⟩
      · rw [(ih (dictInsert d c (errEntry e)) s).1]
        by_cases hc : ch = c
        · subst hc
          simp [dictFind_insert_self]
        · rw [dictFind_insert_other d ch c (errEntry e) hc]
          simp only [List.mem_cons]
          tauto
      · intro hlt hmem
        refine (ih (dictInsert d c (errEntry e)) s).2 hlt ?_
        by_cases hc : ch = c
        · subst hc
          have hb := scanChannel_bad ch s hlt
          rw [hb] at hsc
          injection hsc with he
          right
          rw [← he]
          exact dictFind_insert_self d ch (errEntry _)
        · rcases hmem with hm | hm
          · rcases List.mem_cons.mp hm with h | h
            · exact absurd h hc
            · exact Or.inl h
          · right
            rw [dictFind_insert_other d ch c _ hc]
            exact hm
    · obtain ⟨entry, s1⟩ := es
      simp only [scanLoop, hsc]
      refine ⟨?_, ?_⟩
      · rw [(ih (dictInsert d c entry) s1).1]
        by_cases hc : ch = c
        · subst hc
          simp [dictFind_insert_self]
        · rw [dictFind_insert_other d ch c entry hc]
          simp only [List.mem_cons]
          tauto
      · intro hlt hmem
        refine (ih (dictInsert d c entry) s1).2 hlt ?_
        by_cases hc : ch = c
        · subst hc
          have hb := scanChannel_bad ch s hlt
          rw [hb] at hsc
          exact Except.noConfusion hsc
        · rcases hmem with hm | hm
          · rcases List.mem_cons.mp hm with h | h
            · exact absurd h hc
            · exact Or.inl h
          · right
            rw [dictFind_insert_other d ch c entry hc]
            exact hm

/-- C8: the scan yields an entry for exactly the requested channels; when a
channel's read raises, that channel's entry is the per-field error marker and
the loop proceeds to the rest (the scan itself is a total function of the
channel script: no exception escapes it). -/
theorem C8_scan_isolates_failures (l : List Int) (s : SerialState) :
    (∀ ch : Int, (dictFind (scan_inputs l s).1 ch).isSome ↔ ch ∈ l) ∧
    (∀ ch : Int, ch ∈ l → ch < 1 →
      dictFind (scan_inputs l s).1 ch =
        some (errEntry "Input channel must be an integer >= 1")) := by
  constructor
  · intro ch
    have h := (scanLoop_spec l [] s ch).1
    simpa [scan_inputs, dictFind] using h
  · intro ch hmem hlt
    exact (scanLoop_spec l [] s ch).2 hlt (Or.inl hmem)

/-- C8 witness: scanning `[1, 0]`, channel 1 is populated normally and the
invalid channel 0 carries the error marker. -/
theorem C8_witness :
    ((dictFind (scan_inputs [1, 0] ⟨[], [some "0", some "1.5", some "0", some "2.0"]⟩).1
      1).isSome = true) ∧
    dictFind (scan_inputs [1, 0] ⟨[], [some "0", some "1.5", some "0", some "2.0"]⟩).1 0 =
      some (errEntry "Input channel must be an integer >= 1") := by
  have h := C8_scan_isolates_failures [1, 0] ⟨[], [some "0", some "1.5", some "0", some "2.0"]⟩
  exact ⟨(h.1 1).mpr (by simp), h.2 0 (by simp) (by decide)⟩

example : parseFloat "1.5" = some ⟨3, 2⟩ := by decide
example : parseFloat "0.000123" = some ⟨123, 1000000⟩ := by decide
example : parseFloat "-2.5" = some ⟨-5, 2⟩ := by decide
example : parseFloat "0.0" = some ⟨0, 1⟩ := by decide
example : parseFloat "NONE" = none := by decide
example : parseFloat "1e3" = some ⟨1000, 1⟩ := by decide
example : parseInt "0" = some 0 := by decide
example : splitComma "1,10,22" = ["1", "10", "22"] := by decide
example : read_resistance 1 ⟨[], [some "0", some "1.5"]⟩ =
    .ok (.num ⟨3, 2⟩, ⟨["RDGST? 1", "RDGR? 1"], []⟩) := by decide
example : read_temperature 1 ⟨[], [some "0", some "-1.5"]⟩ =
    .ok (.num ⟨-3, 2⟩, ⟨["RDGST? 1", "KRDG? 1"], []⟩) := by decide

end Lakeshore370
